import Mathlib

/-!
Shallow embedding of the colordict package (aleferna12/colordict).

The embedding covers the two core modules:
  * `colordict/color.py` — color classes over a canonical RGBA value, each
    storing a displayed component tuple plus the canonical `_rgba` 4-tuple;
  * `colordict/cdict.py` — the `ColorDict` registry: name→color bindings,
    palette membership lists, dirty tracking, save/backup/restore.

Python floats are modelled as rationals (`ℚ`); every arithmetic step of the
source (including the relevant parts of the standard-library `colorsys`
module) is translated literally.  Fallible constructors (which `raise` in
Python) return `Option`/`Except`.
-/

namespace Colordict

/-- Python `x % m` on floats: the result has the sign of the divisor,
`x % m = x - m * floor (x / m)` (for positive `m`). -/
def pymod (x m : ℚ) : ℚ := x - m * ⌊x / m⌋

/-- Python `int(x)` on a float truncates toward zero. -/
def pyint (q : ℚ) : ℤ := if 0 ≤ q then ⌊q⌋ else -⌊-q⌋

/-- Python `round(x)` rounds half to even (banker's rounding). -/
def pyround0 (q : ℚ) : ℤ :=
  let f : ℤ := ⌊q⌋
  let r : ℚ := q - f
  if r < 1/2 then f
  else if 1/2 < r then f + 1
  else if f % 2 = 0 then f else f + 1

/-- Python `round(x, n)` for `n > 0` digits (idealized over `ℚ`). -/
def pyroundN (n : ℕ) (q : ℚ) : ℚ := (pyround0 (q * 10 ^ n) : ℚ) / 10 ^ n

/-- A canonical RGBA value: the `_rgba` 4-tuple every color object stores.
The shipped palette records are 4-element arrays, so canonical values are
modelled with all four components present. -/
structure Rgba where
  r : ℚ
  g : ℚ
  b : ℚ
  a : ℚ
deriving DecidableEq, Repr

/-! ### colorsys (Python standard library), translated over ℚ

The Python constants ONE_THIRD / ONE_SIXTH / TWO_THIRD are the floats
nearest 1/3, 1/6, 2/3; the rational idealization uses the exact values. -/

/-- `colorsys._v(m1, m2, hue)`. -/
def colorsys_v (m1 m2 hue : ℚ) : ℚ :=
  let hue := pymod hue 1
  if hue < 1/6 then m1 + (m2 - m1) * hue * 6
  else if hue < 1/2 then m2
  else if hue < 2/3 then m1 + (m2 - m1) * (2/3 - hue) * 6
  else m1

/-- `colorsys.hls_to_rgb(h, l, s)`. -/
def hls_to_rgb (h l s : ℚ) : ℚ × ℚ × ℚ :=
  if s = 0 then (l, l, l)
  else
    let m2 := if l ≤ 1/2 then l * (1 + s) else l + s - l * s
    let m1 := 2 * l - m2
    (colorsys_v m1 m2 (h + 1/3), colorsys_v m1 m2 h, colorsys_v m1 m2 (h - 1/3))

/-- `colorsys.rgb_to_hls(r, g, b)`; returns `(h, l, s)`. -/
def rgb_to_hls (r g b : ℚ) : ℚ × ℚ × ℚ :=
  let maxc := max r (max g b)
  let minc := min r (min g b)
  let l := (minc + maxc) / 2
  if minc = maxc then (0, l, 0)
  else
    let s := if l ≤ 1/2 then (maxc - minc) / (maxc + minc)
             else (maxc - minc) / (2 - maxc - minc)
    let rc := (maxc - r) / (maxc - minc)
    let gc := (maxc - g) / (maxc - minc)
    let bc := (maxc - b) / (maxc - minc)
    let h := if r = maxc then bc - gc
             else if g = maxc then 2 + rc - bc
             else 4 + gc - rc
    (pymod (h / 6) 1, l, s)

/-- `colorsys.rgb_to_hsv(r, g, b)`; returns `(h, s, v)`. -/
def rgb_to_hsv (r g b : ℚ) : ℚ × ℚ × ℚ :=
  let maxc := max r (max g b)
  let minc := min r (min g b)
  let v := maxc
  if minc = maxc then (0, 0, v)
  else
    let s := (maxc - minc) / maxc
    let rc := (maxc - r) / (maxc - minc)
    let gc := (maxc - g) / (maxc - minc)
    let bc := (maxc - b) / (maxc - minc)
    let h := if r = maxc then bc - gc
             else if g = maxc then 2 + rc - bc
             else 4 + gc - rc
    (pymod (h / 6) 1, s, v)

/-- `colorsys.hsv_to_rgb(h, s, v)`. -/
def hsv_to_rgb (h s v : ℚ) : ℚ × ℚ × ℚ :=
  if s = 0 then (v, v, v)
  else
    let i := pyint (h * 6)
    let f := h * 6 - i
    let p := v * (1 - s)
    let q := v * (1 - s * f)
    let t := v * (1 - s * (1 - f))
    let i := i % 6
    if i = 0 then (v, t, p)
    else if i = 1 then (q, v, p)
    else if i = 2 then (p, v, t)
    else if i = 3 then (p, q, v)
    else if i = 4 then (t, p, q)
    else (v, p, q)

/-! ### color.py -/

/-- A constructed tuple-based color object (`ColorTupleBase` instance):
the displayed tuple contents and the canonical `_rgba` value. -/
structure ColorT where
  components : List ℚ
  rgba : Rgba
deriving DecidableEq, Repr

/-- `ColorTupleBase.__new__(cls, iterable, rgba, include_a, round_to)`:
drops the trailing alpha from the displayed tuple unless `include_a`, then
applies the `round_to` rounding mode, and stores `rgba` as `_rgba`. -/
def colorTupleNew (iterable : List ℚ) (rgba : Rgba) (include_a : Bool) (round_to : ℤ) : ColorT :=
  let it := if include_a then iterable else iterable.dropLast
  let it := if round_to = 0 then it.map (fun v => (pyround0 v : ℚ))
            else if round_to > 0 then it.map (pyroundN round_to.toNat)
            else it
  ⟨it, rgba⟩

/-- `sRGBColor.__new__(cls, r, g, b, a=None, norm=255, include_a=False, round_to=-1)`.
Returns `none` when the source raises: `ValueError` when a component exceeds
`norm`, and — should the range check pass with `norm = 0` — the
`ZeroDivisionError` of the `r / norm` divisions.  Note the source passes
`include_a=False` to the base constructor regardless of the `include_a`
argument it received. -/
def sRGBColor_new (r g b : ℚ) (aOpt : Option ℚ) (norm : ℚ) (include_a : Bool)
    (round_to : ℤ) : Option ColorT :=
  let _ := include_a
  let a := aOpt.getD norm
  if r > norm ∨ g > norm ∨ b > norm ∨ a > norm then none
  else if norm = 0 then none
  else some (colorTupleNew [r, g, b, a] ⟨r / norm, g / norm, b / norm, a / norm⟩ false round_to)

/-- `sRGBColor._from_rgba(cls, rgba, norm=255, include_a=False, round_to=-1)`:
scales each canonical component by `norm` for display and stores `rgba`
unchanged; this constructor does forward its `include_a` argument. -/
def sRGBColor_from_rgba (rgba : Rgba) (norm : ℚ) (include_a : Bool) (round_to : ℤ) : ColorT :=
  colorTupleNew [rgba.r * norm, rgba.g * norm, rgba.b * norm, rgba.a * norm]
    rgba include_a round_to

/-- `HSLColor.__new__(cls, h, s, l, a=None, h_norm=360, sla_norm=1, include_a=False, round_to=-1)`.
`none` covers both `ValueError`s of the range checks and the
`ZeroDivisionError` of `h / h_norm`, `l / sla_norm`, `s / sla_norm` when a
base passed the checks but is zero. -/
def HSLColor_new (h s l : ℚ) (aOpt : Option ℚ) (h_norm sla_norm : ℚ) (include_a : Bool)
    (round_to : ℤ) : Option ColorT :=
  let a := aOpt.getD sla_norm
  if h > h_norm then none
  else if s > sla_norm ∨ l > sla_norm ∨ a > sla_norm then none
  else if h_norm = 0 ∨ sla_norm = 0 then none
  else
    let rgb := hls_to_rgb (h / h_norm) (l / sla_norm) (s / sla_norm)
    some (colorTupleNew [h, s, l, a] ⟨rgb.1, rgb.2.1, rgb.2.2, a / sla_norm⟩ include_a round_to)

/-- `HSLColor._from_rgba(cls, rgba, h_norm=360, sla_norm=1, include_a=False, round_to=-1)`.
`rgb_to_hls` yields `(h, l, s)`; the display tuple is `(h, s, l, a)` scaled. -/
def HSLColor_from_rgba (rgba : Rgba) (h_norm sla_norm : ℚ) (include_a : Bool)
    (round_to : ℤ) : ColorT :=
  let hls := rgb_to_hls rgba.r rgba.g rgba.b
  colorTupleNew [hls.1 * h_norm, hls.2.2 * sla_norm, hls.2.1 * sla_norm, rgba.a * sla_norm]
    rgba include_a round_to

/-- `HSVColor.__new__(cls, h, s, v, a=None, h_norm=360, sva_norm=1, include_a=False, round_to=-1)`.
`none` covers both `ValueError`s of the range checks and the
`ZeroDivisionError` of the divisions by a zero base. -/
def HSVColor_new (h s v : ℚ) (aOpt : Option ℚ) (h_norm sva_norm : ℚ) (include_a : Bool)
    (round_to : ℤ) : Option ColorT :=
  let a := aOpt.getD sva_norm
  if h > h_norm then none
  else if s > sva_norm ∨ v > sva_norm ∨ a > sva_norm then none
  else if h_norm = 0 ∨ sva_norm = 0 then none
  else
    let rgb := hsv_to_rgb (h / h_norm) (s / sva_norm) (v / sva_norm)
    some (colorTupleNew [h, s, v, a] ⟨rgb.1, rgb.2.1, rgb.2.2, a / sva_norm⟩ include_a round_to)

/-- `HSVColor._from_rgba(cls, rgba, h_norm=360, sva_norm=1, include_a=False, round_to=-1)`. -/
def HSVColor_from_rgba (rgba : Rgba) (h_norm sva_norm : ℚ) (include_a : Bool)
    (round_to : ℤ) : ColorT :=
  let hsv := rgb_to_hsv rgba.r rgba.g rgba.b
  colorTupleNew [hsv.1 * h_norm, hsv.2.1 * sva_norm, hsv.2.2 * sva_norm, rgba.a * sva_norm]
    rgba include_a round_to

/-- `CMYKColor.__new__(cls, c, m, y, k, a=None, norm=1, include_a=False, round_to=-1)`.
`none` covers the range-check `ValueError` and the `ZeroDivisionError` of
`c / norm` etc. when `norm = 0` passed the checks. -/
def CMYKColor_new (c m y k : ℚ) (aOpt : Option ℚ) (norm : ℚ) (include_a : Bool)
    (round_to : ℤ) : Option ColorT :=
  let a := aOpt.getD norm
  if c > norm ∨ m > norm ∨ y > norm ∨ k > norm ∨ a > norm then none
  else if norm = 0 then none
  else
    let r := (1 - c / norm) * (1 - k / norm)
    let g := (1 - m / norm) * (1 - k / norm)
    let b := (1 - y / norm) * (1 - k / norm)
    some (colorTupleNew [c, m, y, k, a] ⟨r, g, b, a / norm⟩ include_a round_to)

/-- `CMYKColor._from_rgba(cls, rgba, norm=1, include_a=False, round_to=-1)`.
In the non-degenerate branch the source divides by `1 - k`; over `ℚ` a
division by zero yields 0, but with canonical components in `[0, 1]` the
divisor is zero only when `r = g = b = 0`, which the first branch catches. -/
def CMYKColor_from_rgba (rgba : Rgba) (norm : ℚ) (include_a : Bool)
    (round_to : ℤ) : ColorT :=
  let cmyka : List ℚ :=
    if rgba.r + rgba.g + rgba.b = 0 then [0, 0, 0, norm, rgba.a * norm]
    else
      let c := 1 - rgba.r
      let m := 1 - rgba.g
      let y := 1 - rgba.b
      let k := min c (min m y)
      [(c - k) / (1 - k) * norm, (m - k) / (1 - k) * norm, (y - k) / (1 - k) * norm,
        k * norm, rgba.a * norm]
  colorTupleNew cmyka rgba include_a round_to

/-- `CMYColor.__new__(cls, c, m, y, a=None, norm=1, include_a=False, round_to=-1)`.
`none` covers the range-check `ValueError` and the `ZeroDivisionError` of
`1 - c / norm` etc. when `norm = 0` passed the checks. -/
def CMYColor_new (c m y : ℚ) (aOpt : Option ℚ) (norm : ℚ) (include_a : Bool)
    (round_to : ℤ) : Option ColorT :=
  let a := aOpt.getD norm
  if c > norm ∨ m > norm ∨ y > norm ∨ a > norm then none
  else if norm = 0 then none
  else
    some (colorTupleNew [c, m, y, a] ⟨1 - c / norm, 1 - m / norm, 1 - y / norm, a / norm⟩
      include_a round_to)

/-- `CMYColor._from_rgba(cls, rgba, norm=1, include_a=False, round_to=-1)`. -/
def CMYColor_from_rgba (rgba : Rgba) (norm : ℚ) (include_a : Bool) (round_to : ℤ) : ColorT :=
  colorTupleNew [(1 - rgba.r) * norm, (1 - rgba.g) * norm, (1 - rgba.b) * norm, rgba.a * norm]
    rgba include_a round_to

/-! ### cdict.py

The `ColorDict` model fixes the configuration the claims exercise: the
default `color_space = sRGBColor`, and a single forwarded keyword argument
`norm` (whose sRGBColor default is 255).  Color bindings (dynamic
attributes `setattr(self, name, color)`) are an association list, the
`colors` and `_changed` sets are duplicate-free lists, and `palettes` is an
insertion-ordered association list mirroring a Python dict. -/

/-- The in-memory state of a `ColorDict` instance. -/
structure ColorDictState where
  /-- The dynamic color attributes: `name ↦` the bound color object. -/
  bindings : List (String × ColorT)
  /-- `self.colors`, the set of registered color names. -/
  colors : List String
  /-- `self.palettes`, palette name `↦` ordered list of color names. -/
  palettes : List (String × List String)
  /-- `self._changed`, the dirty palette set. -/
  changed : List String
  /-- The `norm` keyword forwarded to `sRGBColor` (255 when not supplied). -/
  norm : ℚ
deriving DecidableEq, Repr

/-- `setattr(self, name, color)`: replace the first binding of `name`, or
append a new one. -/
def setBinding : List (String × ColorT) → String → ColorT → List (String × ColorT)
  | [], n, c => [(n, c)]
  | (m, d) :: rest, n, c =>
      if m = n then (n, c) :: rest else (m, d) :: setBinding rest n c

/-- `set.add`: insert a name into a duplicate-free list modelling a set. -/
def addSet (l : List String) (n : String) : List String :=
  if n ∈ l then l else l ++ [n]

/-- `self.palettes[palette].append(name)`, creating the palette entry first
when absent (`if palette not in self.palettes: self.palettes[palette] = []`). -/
def dictAppend : List (String × List String) → String → String → List (String × List String)
  | [], p, n => [(p, [n])]
  | (q, l) :: rest, p, n =>
      if q = p then (q, l ++ [n]) :: rest else (q, l) :: dictAppend rest p n

/-- Update the value stored under key `p`, leaving other entries alone
(mutating one dict entry in place). -/
def dictUpdate : List (String × List String) → String →
    (List String → List String) → List (String × List String)
  | [], _, _ => []
  | (q, l) :: rest, p, f =>
      if q = p then (q, f l) :: dictUpdate rest p f
      else (q, l) :: dictUpdate rest p f

/-- Helper for `dedupFirst`: drop every name already seen. -/
def dedupFirstAux : List String → List String → List String
  | [], _ => []
  | n :: ns, seen =>
      if n ∈ seen then dedupFirstAux ns seen
      else n :: dedupFirstAux ns (seen ++ [n])

/-- Python dict keys built from a key list: duplicates collapse onto the
first occurrence, preserving order. -/
def dedupFirst (l : List String) : List String := dedupFirstAux l []

/-- The reserved attribute names `add` rejects: the `attributes` list of the
source plus `dir(ColorDict)`.  `dir()` additionally yields inherited dunder
names (`__init__`, `__dict__`, …); palette color names never take that shape
and no claim involves them, so they are elided. -/
def reservedNames : List String :=
  ["_color_space", "palettes_path", "_changed", "_kwargs", "colors", "palettes",
   "add", "update", "remove", "remove_all", "save", "backup", "restore_backup",
   "get_color", "names", "color_space", "_interpret_color_input"]

/-- Attribute/dict lookup by name in an association list: the model of
`getattr(self, name, None)` on the color bindings and of `dict[key]`. -/
def lookupName {A : Type} (n : String) : List (String × A) → Option A
  | [] => none
  | (k, v) :: rest => if k = n then some v else lookupName n rest

/-- An argument passed to `add`/`update`: either an existing `ColorBase`
instance or a color-like sequence of numbers. -/
inductive ColorInput
  | obj (c : ColorT)
  | tuple (vals : List ℚ)
deriving DecidableEq, Repr

/-- `ColorDict._interpret_color_input(color)` for the modelled configuration
(`color_space = sRGBColor`, kwargs `{norm}`): a `ColorBase` goes through
`sRGBColor._from_rgba(color._rgba, norm=norm)`; a raw sequence is unpacked
into `sRGBColor(*color, norm=norm)`; any constructor failure (including an
arity mismatch) is re-raised as `ValueError`, modelled as `none`. -/
def interpret_color_input (norm : ℚ) : ColorInput → Option ColorT
  | .obj c => some (sRGBColor_from_rgba c.rgba norm false (-1))
  | .tuple [r, g, b] => sRGBColor_new r g b none norm false (-1)
  | .tuple [r, g, b, a] => sRGBColor_new r g b (some a) norm false (-1)
  | .tuple _ => none

/-- The errors `ColorDict.add` can raise. `nameConflict` carries the color
name, the rejected canonical value and the existing canonical value — the
three values interpolated into the source's `ValueError` message. -/
inductive AddError
  | reservedName (name : String)
  | interpretFailure
  | nameConflict (name : String) (newRgba existingRgba : Rgba)
deriving DecidableEq, Repr

/-- The successful tail of `ColorDict.add`: bind the color attribute,
register the name, append it to the palette's sequence (creating the
palette if new) and mark that palette dirty. -/
def ColorDictState.addOk (s : ColorDictState) (name : String) (c : ColorT)
    (palette : String) : ColorDictState :=
  { s with bindings := setBinding s.bindings name c,
           colors := addSet s.colors name,
           palettes := dictAppend s.palettes palette name,
           changed := addSet s.changed palette }

/-- `ColorDict.add(name, color, palette='unassigned')`. -/
def ColorDictState.add (s : ColorDictState) (name : String) (color : ColorInput)
    (palette : String) : Except AddError ColorDictState :=
  if name ∈ reservedNames then .error (.reservedName name)
  else
    match interpret_color_input s.norm color with
    | none => .error .interpretFailure
    | some c =>
      match lookupName name s.bindings with
      | some existing =>
          if existing.rgba ≠ c.rgba then
            .error (.nameConflict name c.rgba existing.rgba)
          else .ok (s.addOk name c palette)
      | none => .ok (s.addOk name c palette)

/-- `ColorDict.remove(name, palette)`: `self.palettes[palette].remove(name)`
(first occurrence), `self.colors.remove(name)`, mark the palette dirty.
`none` models the `KeyError`/`ValueError` the source raises when the
palette is unknown, the name is not in its sequence, or the name is not in
`colors` (the source then leaves a partially mutated dict behind; no claim
reaches that path). -/
def ColorDictState.remove (s : ColorDictState) (name palette : String) :
    Option ColorDictState :=
  match lookupName palette s.palettes with
  | none => none
  | some lst =>
      if name ∈ lst ∧ name ∈ s.colors then
        some { s with palettes := dictUpdate s.palettes palette (fun l => l.erase name),
                      colors := s.colors.erase name,
                      changed := addSet s.changed palette }
      else none

/-- The canonical value bound to a name, when the name is bound. -/
def ColorDictState.bindingRgba (s : ColorDictState) (n : String) : Option Rgba :=
  (lookupName n s.bindings).map ColorT.rgba

/-- The record `save` serializes for one palette: each name of the palette's
ordered sequence (dict keys, so duplicates collapse) mapped to the bound
color's `_rgba`.  An unbound name makes the source raise `AttributeError`
mid-write; the model keeps the record total by storing `Option Rgba`
(the claims only reach states where every palette name is bound). -/
def ColorDictState.saveRecord (s : ColorDictState) (palette : String) :
    List (String × Option Rgba) :=
  (dedupFirst ((lookupName palette s.palettes).getD [])).map
    (fun n => (n, s.bindingRgba n))

/-- `ColorDict.save()`: returns the performed writes — one
`(palette + ".json", record)` per dirty palette — and the new state, whose
dirty set is cleared. -/
def ColorDictState.save (s : ColorDictState) :
    List (String × List (String × Option Rgba)) × ColorDictState :=
  (s.changed.map (fun p => (p ++ ".json", s.saveRecord p)),
   { s with changed := [] })

/-- `ColorDict.backup()`: the full-state record written to `backup.json` —
every palette (dirty or not) mapped to its `name ↦ _rgba` record.  `none`
models the `AttributeError` raised if some palette name is unbound. -/
def ColorDictState.backup (s : ColorDictState) :
    Option (List (String × List (String × Rgba))) :=
  s.palettes.mapM (fun e =>
    ((dedupFirst e.2).mapM (fun n => (s.bindingRgba n).map (fun v => (n, v)))).map
      (fun entries => (e.1, entries)))

/-- `ColorDict.restore_backup()` applied to a previously written backup
record: delete every color attribute, clear `palettes` and `_changed`
(`self.colors` is *not* cleared by the source), then re-add every entry via
`self.add(name, value, palette)` — the stored value arrives as a plain JSON
array, so it is re-interpreted through the forward `sRGBColor` constructor. -/
def ColorDictState.restore_backup (s : ColorDictState)
    (record : List (String × List (String × Rgba))) : Except AddError ColorDictState :=
  let s0 : ColorDictState :=
    { s with bindings := s.bindings.filter (fun e => ¬ e.1 ∈ s.colors),
             palettes := [], changed := [] }
  record.foldlM (fun st pal =>
    if pal.2 ≠ [] then
      pal.2.foldlM (fun st2 e =>
        st2.add e.1 (.tuple [e.2.r, e.2.g, e.2.b, e.2.a]) pal.1) st
    else pure st) s0

/-- One entry `(name, value)` processed by the loading loop of
`ColorDict.__init__`: an unseen name is bound via
`color_space._from_rgba(value, **kwargs)` and registered; a name already
bound to a different `_rgba` leaves the state untouched and appends a
collision warning (`logging.warning`), whose payload records the name, the
new value and the existing value; a name already bound to the same `_rgba`
is silently skipped.  No branch raises. -/
def loadEntry (norm : ℚ) (st : ColorDictState × List (String × Rgba × Rgba))
    (e : String × Rgba) : ColorDictState × List (String × Rgba × Rgba) :=
  match lookupName e.1 st.1.bindings with
  | none =>
      ({ st.1 with bindings := setBinding st.1.bindings e.1
                     (sRGBColor_from_rgba e.2 norm false (-1)),
                   colors := addSet st.1.colors e.1 }, st.2)
  | some existing =>
      if existing.rgba ≠ e.2 then (st.1, st.2 ++ [(e.1, e.2, existing.rgba)])
      else (st.1, st.2)

/-- One palette file processed by `ColorDict.__init__`: record the palette's
name list (`self.palettes[pal_name] = list(pal_dict)`), then fold the
entries through `loadEntry`. -/
def loadPalette (norm : ℚ) (st : ColorDictState × List (String × Rgba × Rgba))
    (pal : String × List (String × Rgba)) : ColorDictState × List (String × Rgba × Rgba) :=
  pal.2.foldl (loadEntry norm)
    ({ st.1 with palettes := st.1.palettes ++ [(pal.1, pal.2.map Prod.fst)] }, st.2)

/-- `ColorDict.__init__` over the selected palette files (in directory-scan
order, already filtered by the `palettes` parameter; each file is a parsed
JSON dict, so its entry names are unique).  Returns the constructed state
and the list of collision warnings issued. -/
def ColorDict_init (norm : ℚ) (files : List (String × List (String × Rgba))) :
    ColorDictState × List (String × Rgba × Rgba) :=
  files.foldl (loadPalette norm) (⟨[], [], [], [], norm⟩, [])

/-! ### Concrete states used by the claim evaluations -/

/-- The color bound to `"red"` in the C1 scenario: loaded from the canonical
record `(1, 0, 0, 1)` with the default `norm = 255`. -/
def cdictC1red : ColorT := sRGBColor_from_rgba ⟨1, 0, 0, 1⟩ 255 false (-1)

/-- A `ColorDict` (default sRGB space, `norm = 255`) holding one palette
`"pal"` with the single color `"red" ↦ (1, 0, 0, 1)`, nothing dirty. -/
def cdictC1 : ColorDictState :=
  ⟨[("red", cdictC1red)], ["red"], [("pal", ["red"])], [], 255⟩

/-- The color bound to `"red"` in the C2 scenario: canonical `(1/2, 0, 0, 1)`. -/
def cdictC2red : ColorT := sRGBColor_from_rgba ⟨1/2, 0, 0, 1⟩ 255 false (-1)

/-- A `ColorDict` whose palette `"pal"` is dirty and holds
`"red" ↦ (1/2, 0, 0, 1)`. -/
def cdictC2 : ColorDictState :=
  ⟨[("red", cdictC2red)], ["red"], [("pal", ["red"])], ["pal"], 255⟩

/-- The empty `ColorDict` (no palettes loaded), default `norm = 255`. -/
def emptyCD : ColorDictState := ⟨[], [], [], [], 255⟩

/-- The interpreted color for the tuple `(255, 0, 0, 255)` at `norm = 255`. -/
def cxC3 : ColorT := ⟨[255, 0, 0], ⟨1, 0, 0, 1⟩⟩

/-- The interpreted color for the tuple `(0, 255, 255, 255)` at `norm = 255`. -/
def cyC3 : ColorT := ⟨[0, 255, 255], ⟨0, 1, 1, 1⟩⟩

/-- The state after `add("red", (255, 0, 0, 255), "pal")` on the empty dict. -/
def cdictC3t : ColorDictState :=
  ⟨[("red", cxC3)], ["red"], [("pal", ["red"])], ["pal"], 255⟩

/-- The color `sRGBColor(10, 20, 30, 40, norm=255, include_a=True)`
constructs: three displayed components, canonical `(10/255, 20/255, 30/255,
40/255)`. -/
def srgbC10 : ColorT := ⟨[10, 20, 30], ⟨10/255, 20/255, 30/255, 40/255⟩⟩

/-- A `ColorDict` in which `"red"` belongs to the two palettes `"p1"` and
`"p2"`, nothing dirty. -/
def cdictC5 : ColorDictState :=
  ⟨[("red", ⟨[255, 0, 0], ⟨1, 0, 0, 1⟩⟩)], ["red"],
   [("p1", ["red"]), ("p2", ["red"])], [], 255⟩

/-! ### Helper lemmas -/

lemma lookupName_setBinding_self (bs : List (String × ColorT)) (n : String) (c : ColorT) :
    lookupName n (setBinding bs n c) = some c := by
  induction bs with
  | nil => simp [setBinding, lookupName]
  | cons hd tl ih =>
      obtain ⟨m, d⟩ := hd
      by_cases h : m = n
      · subst h; simp [setBinding, lookupName]
      · simp [setBinding, h, lookupName, ih]

lemma lookupName_dictAppend_self (ps : List (String × List String)) (p n : String) :
    lookupName p (dictAppend ps p n) = some (((lookupName p ps).getD []) ++ [n]) := by
  induction ps with
  | nil => simp [dictAppend, lookupName]
  | cons hd tl ih =>
      obtain ⟨q, l⟩ := hd
      by_cases h : q = p
      · subst h; simp [dictAppend, lookupName]
      · simp [dictAppend, h, lookupName, ih]

lemma lookupName_dictUpdate_self (ps : List (String × List String)) (p : String)
    (f : List String → List String) :
    lookupName p (dictUpdate ps p f) = (lookupName p ps).map f := by
  induction ps with
  | nil => simp [dictUpdate, lookupName]
  | cons hd tl ih =>
      obtain ⟨q, l⟩ := hd
      by_cases h : q = p
      · subst h; simp [dictUpdate, lookupName]
      · simpa [dictUpdate, h, lookupName] using ih

lemma lookupName_dictUpdate_ne (ps : List (String × List String)) (p Q : String)
    (f : List String → List String) (h : Q ≠ p) :
    lookupName Q (dictUpdate ps p f) = lookupName Q ps := by
  induction ps with
  | nil => simp [dictUpdate, lookupName]
  | cons hd tl ih =>
      obtain ⟨q, l⟩ := hd
      by_cases hqp : q = p
      · subst hqp
        have : q ≠ Q := fun hqQ => h (hqQ ▸ rfl)
        simpa [dictUpdate, lookupName, this] using ih
      · by_cases hqQ : q = Q
        · subst hqQ; simp [dictUpdate, hqp, lookupName]
        · simpa [dictUpdate, hqp, lookupName, hqQ] using ih

lemma mem_dedupFirstAux :
    ∀ (l seen : List String) (x : String), x ∈ l → x ∉ seen → x ∈ dedupFirstAux l seen := by
  intro l
  induction l with
  | nil => intro seen x hx; cases hx
  | cons n ns ih =>
      intro seen x hx hseen
      rcases List.mem_cons.mp hx with rfl | hx2
      · unfold dedupFirstAux
        rw [if_neg hseen]
        exact List.mem_cons_self _ _
      · unfold dedupFirstAux
        by_cases hn : n ∈ seen
        · rw [if_pos hn]; exact ih seen x hx2 hseen
        · rw [if_neg hn]
          by_cases hxn : x = n
          · exact hxn ▸ List.mem_cons_self _ _
          · exact List.mem_cons_of_mem _ (ih (seen ++ [n]) x hx2 (by simp [hseen, hxn]))

lemma mem_dedupFirst (l : List String) (x : String) (h : x ∈ l) : x ∈ dedupFirst l :=
  mem_dedupFirstAux l [] x h (List.not_mem_nil x)

/-- A successful `add` is the unconditional tail `addOk` on the interpreted
color, and implies the name was not reserved. -/
lemma add_ok_iff {s : ColorDictState} {n : String} {x : ColorInput} {p : String}
    {t : ColorDictState} {cx : ColorT}
    (hx : interpret_color_input s.norm x = some cx)
    (h1 : s.add n x p = .ok t) :
    n ∉ reservedNames ∧ t = s.addOk n cx p := by
  by_cases hres : n ∈ reservedNames
  · exact absurd h1 (by simp [ColorDictState.add, hres])
  · refine ⟨hres, ?_⟩
    unfold ColorDictState.add at h1
    rw [if_neg hres, hx] at h1
    cases hl : lookupName n s.bindings with
    | none => rw [hl] at h1; simp at h1; exact h1.symm
    | some existing =>
        rw [hl] at h1
        by_cases hr : existing.rgba ≠ cx.rgba
        · simp [hr] at h1
        · simp [hr] at h1; exact h1.symm

lemma loadEntry_changed (norm : ℚ) (st : ColorDictState × List (String × Rgba × Rgba))
    (e : String × Rgba) : ((loadEntry norm st e).1).changed = (st.1).changed := by
  unfold loadEntry
  cases h : lookupName e.1 st.1.bindings with
  | none => simp
  | some existing => by_cases hr : existing.rgba ≠ e.2 <;> simp [hr]

lemma foldl_loadEntry_changed (norm : ℚ) (l : List (String × Rgba))
    (st : ColorDictState × List (String × Rgba × Rgba)) :
    ((l.foldl (loadEntry norm) st).1).changed = (st.1).changed := by
  induction l generalizing st with
  | nil => rfl
  | cons e tl ih => rw [List.foldl_cons, ih, loadEntry_changed]

lemma ColorDict_init_changed (norm : ℚ) (files : List (String × List (String × Rgba))) :
    ((ColorDict_init norm files).1).changed = [] := by
  suffices h : ∀ st, (((files.foldl (loadPalette norm) st)).1).changed = (st.1).changed from
    (h (⟨[], [], [], [], norm⟩, []))
  induction files with
  | nil => intro st; rfl
  | cons f tl ih =>
      intro st
      rw [List.foldl_cons, ih]
      show ((loadPalette norm st f).1).changed = (st.1).changed
      unfold loadPalette
      rw [foldl_loadEntry_changed]

/-! ### Claim theorems -/

/-- C1 (code evaluated at the failing input): `backup()` followed by
`restore_backup()` does *not* reproduce the canonical values.  On a
`ColorDict` with default `norm = 255` holding `"red" ↦ (1, 0, 0, 1)` in
palette `"pal"`, the backup record stores the canonical value `(1, 0, 0, 1)`,
but `restore_backup` feeds it back through `self.add`, whose
`_interpret_color_input` unpacks the raw array into the forward `sRGBColor`
constructor — dividing by `norm` a second time — so the restored dict binds
`"red"` to `(1/255, 0, 0, 1/255)`, a different canonical value (names and
palette memberships do survive). -/
theorem C1_backup_restore_rescales :
    cdictC1.backup = some [("pal", [("red", ⟨1, 0, 0, 1⟩)])]
    ∧ (cdictC1.restore_backup [("pal", [("red", ⟨1, 0, 0, 1⟩)])]).map
        (fun t => (t.bindingRgba "red", t.colors, lookupName "pal" t.palettes))
      = .ok (some ⟨1/255, 0, 0, 1/255⟩, ["red"], some ["red"])
    ∧ (⟨1/255, 0, 0, 1/255⟩ : Rgba) ≠ (⟨1, 0, 0, 1⟩ : Rgba) := by
  refine ⟨?_, ?_, ?_⟩
  · simp [ColorDictState.backup, cdictC1, cdictC1red, dedupFirst, dedupFirstAux,
      ColorDictState.bindingRgba, lookupName, sRGBColor_from_rgba, colorTupleNew,
      List.mapM, List.mapM.loop]
  · simp [ColorDictState.restore_backup, cdictC1, cdictC1red, List.foldlM,
      ColorDictState.add, interpret_color_input, sRGBColor_new, colorTupleNew,
      reservedNames, lookupName, ColorDictState.addOk, setBinding, addSet,
      dictAppend, ColorDictState.bindingRgba, sRGBColor_from_rgba, Except.map]
    norm_num
    simp [lookupName]
  · simp [Rgba.mk.injEq]

/-- C2 counterexample: `save()` does not rescale to 0–255 integers.  For the
dirty palette `"pal"` holding `"red" ↦ (1/2, 0, 0, 1)`, the written record
binds `"red"` to the canonical components `(1/2, 0, 0, 1)` verbatim; the
component `1/2` is not an integer (its denominator is 2), so the record is
not "a 3- or 4-element array of integers in 0–255". -/
theorem C2_save_counterexample :
    (cdictC2.save).1 = [("pal.json", [("red", some ⟨1/2, 0, 0, 1⟩)])]
    ∧ ((1 : ℚ)/2).den ≠ 1 := by
  refine ⟨?_, by norm_num [Rat.den]⟩
  simp [ColorDictState.save, ColorDictState.saveRecord, cdictC2, cdictC2red,
    dedupFirst, dedupFirstAux, ColorDictState.bindingRgba, lookupName,
    sRGBColor_from_rgba, colorTupleNew]

/-- C2 amended: for every dirty palette, `save()` writes a record mapping
each color name of that palette's ordered sequence to its canonical
components *as stored* (the `_rgba` value, on the [0,1] scale) — not
rescaled to 0–255 integers. -/
theorem C2_save_amended (s : ColorDictState) (P : String) (lst : List String)
    (n : String) (c : ColorT)
    (hP : P ∈ s.changed) (hlst : lookupName P s.palettes = some lst)
    (hn : n ∈ lst) (hc : lookupName n s.bindings = some c) :
    (P ++ ".json", s.saveRecord P) ∈ (s.save).1
    ∧ (n, some c.rgba) ∈ s.saveRecord P := by
  constructor
  · exact List.mem_map_of_mem _ hP
  · unfold ColorDictState.saveRecord
    rw [hlst]
    have hmem : n ∈ dedupFirst lst := mem_dedupFirst lst n hn
    have h2 : (n, s.bindingRgba n) ∈ (dedupFirst lst).map (fun m => (m, s.bindingRgba m)) :=
      List.mem_map_of_mem _ hmem
    simpa [ColorDictState.bindingRgba, hc] using h2

/-- C2 amended, witnessed at the concrete dirty dict `cdictC2`. -/
theorem C2_save_amended_witness :
    ("pal" ++ ".json", cdictC2.saveRecord "pal") ∈ (cdictC2.save).1
    ∧ ("red", some cdictC2red.rgba) ∈ cdictC2.saveRecord "pal" :=
  C2_save_amended cdictC2 "pal" ["red"] "red" cdictC2red
    (by decide) rfl (by decide) rfl

/-- C3: after a successful `add(n, x)`, a second `add(n, y)` whose
interpreted canonical value differs raises the name-conflict `ValueError`
whose payload carries both the rejected and the existing canonical values,
while a second `add(n, y)` with the same canonical value (into any palette,
possibly a different one) succeeds and appends `n` to that palette's
sequence as well. -/
theorem C3_add_uniqueness (s : ColorDictState) (n : String) (x y : ColorInput)
    (px py : String) (t : ColorDictState) (cx cy : ColorT)
    (hx : interpret_color_input s.norm x = some cx)
    (hy : interpret_color_input s.norm y = some cy)
    (h1 : s.add n x px = .ok t) :
    (cy.rgba ≠ cx.rgba → t.add n y py = .error (.nameConflict n cy.rgba cx.rgba))
    ∧ (cy.rgba = cx.rgba → ∃ u, t.add n y py = .ok u ∧
        lookupName py u.palettes = some (((lookupName py t.palettes).getD []) ++ [n])) := by
  obtain ⟨hres, rfl⟩ := add_ok_iff hx h1
  have hnorm : (s.addOk n cx px).norm = s.norm := rfl
  have hlook : lookupName n (s.addOk n cx px).bindings = some cx :=
    lookupName_setBinding_self _ _ _
  constructor
  · intro hne
    unfold ColorDictState.add
    rw [if_neg hres, hnorm, hy, hlook]
    simp only []
    rw [if_pos (Ne.symm hne)]
  · intro heq
    refine ⟨(s.addOk n cx px).addOk n cy py, ?_, ?_⟩
    · unfold ColorDictState.add
      rw [if_neg hres, hnorm, hy, hlook]
      simp only []
      rw [if_neg (by simp [heq])]
    · exact lookupName_dictAppend_self _ _ _

/-- C3, witnessed: on the dict obtained by `add("red", (255,0,0,255))` from
the empty dict, `add("red", (0,255,255,255))` raises the conflict carrying
the rejected canonical `(0,1,1,1)` and the existing canonical `(1,0,0,1)`. -/
theorem C3_add_uniqueness_witness :
    cdictC3t.add "red" (ColorInput.tuple [0, 255, 255, 255]) "pal"
      = .error (.nameConflict "red" ⟨0, 1, 1, 1⟩ ⟨1, 0, 0, 1⟩) := by
  have hx : interpret_color_input emptyCD.norm (.tuple [255, 0, 0, 255]) = some cxC3 := by
    simp [interpret_color_input, sRGBColor_new, colorTupleNew, cxC3, emptyCD]
  have hy : interpret_color_input emptyCD.norm (.tuple [0, 255, 255, 255]) = some cyC3 := by
    simp [interpret_color_input, sRGBColor_new, colorTupleNew, cyC3, emptyCD]
  have h1 : emptyCD.add "red" (.tuple [255, 0, 0, 255]) "pal" = .ok cdictC3t := by
    simp [ColorDictState.add, interpret_color_input, sRGBColor_new, colorTupleNew,
      reservedNames, emptyCD, lookupName, ColorDictState.addOk, setBinding, addSet,
      dictAppend, cdictC3t, cxC3]
    norm_num
  exact (C3_add_uniqueness emptyCD "red" (.tuple [255, 0, 0, 255]) (.tuple [0, 255, 255, 255])
    "pal" "pal" cdictC3t cxC3 cyC3 hx hy h1).1 (by norm_num [cxC3, cyC3, Rgba.mk.injEq])

/-- C4: `save()` writes exactly the dirty palettes: a freshly constructed
dict has an empty dirty set and saves zero writes; after a single `add`
into palette `P` starting from a clean dict, `save()` writes exactly the
file `P + ".json"`; and after `save()` the dirty set is empty. -/
theorem C4_dirty_tracking :
    (∀ (norm : ℚ) (files : List (String × List (String × Rgba))),
        (((ColorDict_init norm files).1).save).1 = [])
    ∧ (∀ (s : ColorDictState) (n : String) (c : ColorInput) (P : String)
          (t : ColorDictState), s.changed = [] → s.add n c P = .ok t →
        ((t.save).1).map Prod.fst = [P ++ ".json"])
    ∧ (∀ s : ColorDictState, ((s.save).2).changed = []) := by
  refine ⟨?_, ?_, fun s => rfl⟩
  · intro norm files
    show ((ColorDict_init norm files).1).changed.map _ = []
    rw [ColorDict_init_changed]
    rfl
  · intro s n c P t hch h1
    cases hi : interpret_color_input s.norm c with
    | none =>
        by_cases hres : n ∈ reservedNames
        · exact absurd h1 (by simp [ColorDictState.add, hres])
        · exact absurd h1 (by simp [ColorDictState.add, hres, hi])
    | some cx =>
        obtain ⟨hres, rfl⟩ := add_ok_iff hi h1
        have h2 : (s.addOk n cx P).changed = [P] := by
          show addSet s.changed P = [P]
          rw [hch]
          unfold addSet
          rw [if_neg (List.not_mem_nil P)]
          rfl
        show ((s.addOk n cx P).changed.map _).map Prod.fst = _
        rw [h2]
        rfl

/-- C4, witnessed: the dict obtained by one `add` into `"pal"` from the
clean empty dict saves exactly the file `"pal.json"`. -/
theorem C4_dirty_tracking_witness :
    ((cdictC3t.save).1).map Prod.fst = ["pal" ++ ".json"] := by
  have h1 : emptyCD.add "red" (.tuple [255, 0, 0, 255]) "pal" = .ok cdictC3t := by
    simp [ColorDictState.add, interpret_color_input, sRGBColor_new, colorTupleNew,
      reservedNames, emptyCD, lookupName, ColorDictState.addOk, setBinding, addSet,
      dictAppend, cdictC3t, cxC3]
    norm_num
  exact C4_dirty_tracking.2.1 emptyCD "red" (.tuple [255, 0, 0, 255]) "pal" cdictC3t rfl h1

/-- C5 counterexample: `remove` does not leave everything besides the
palette sequence and the dirty flag unchanged — it also discharges the name
from the dict's `colors` registry.  Removing `"red"` from `"p1"` empties
`colors` (it was `["red"]`), and the follow-up `remove("red", "p2")` then
raises even though `"red"` still sits in palette `"p2"`'s sequence. -/
theorem C5_remove_counterexample :
    (cdictC5.remove "red" "p1").map ColorDictState.colors = some []
    ∧ cdictC5.colors = ["red"]
    ∧ ([] : List String) ≠ ["red"]
    ∧ ((cdictC5.remove "red" "p1").bind (fun t => t.remove "red" "p2")) = none := by
  refine ⟨rfl, rfl, by decide, rfl⟩

/-- C5 amended: for a bound name `n` present in palette `P`, `remove(n, P)`
detaches `n` from `P`'s sequence, marks `P` dirty, *and removes `n` from the
dict's `colors` registry*; the attribute binding itself is untouched (so `n`
can still be retrieved), every other palette's sequence is unchanged, and no
other palette is marked dirty. -/
theorem C5_remove_amended (s : ColorDictState) (n P : String) (lst : List String)
    (hP : lookupName P s.palettes = some lst) (hn : n ∈ lst) (hc : n ∈ s.colors) :
    ∃ t, s.remove n P = some t
      ∧ t.bindings = s.bindings
      ∧ t.colors = s.colors.erase n
      ∧ lookupName P t.palettes = some (lst.erase n)
      ∧ (∀ Q, Q ≠ P → lookupName Q t.palettes = lookupName Q s.palettes)
      ∧ t.changed = addSet s.changed P
      ∧ t.norm = s.norm := by
  have hrem : s.remove n P = some
      { s with palettes := dictUpdate s.palettes P (fun l => l.erase n),
               colors := s.colors.erase n,
               changed := addSet s.changed P } := by
    unfold ColorDictState.remove
    rw [hP]
    simp only []
    rw [if_pos ⟨hn, hc⟩]
  refine ⟨_, hrem, rfl, rfl, ?_, ?_, rfl, rfl⟩
  · show lookupName P (dictUpdate s.palettes P _) = _
    rw [lookupName_dictUpdate_self, hP]
    rfl
  · intro Q hQ
    exact lookupName_dictUpdate_ne _ _ _ _ hQ

/-- C5 amended, witnessed at the concrete two-palette dict `cdictC5`. -/
theorem C5_remove_amended_witness :
    ∃ t, cdictC5.remove "red" "p1" = some t
      ∧ t.bindings = cdictC5.bindings
      ∧ t.colors = cdictC5.colors.erase "red"
      ∧ lookupName "p1" t.palettes = some (["red"].erase "red")
      ∧ (∀ Q, Q ≠ "p1" → lookupName Q t.palettes = lookupName Q cdictC5.palettes)
      ∧ t.changed = addSet cdictC5.changed "p1"
      ∧ t.norm = cdictC5.norm :=
  C5_remove_amended cdictC5 "red" "p1" ["red"] rfl (by decide) (by decide)

/-- C6: during load, an entry whose name is already bound to a *different*
canonical value never raises — the entry is recorded as a collision warning
carrying the name, the new value and the first-seen value, the first-seen
binding is kept and the state is otherwise untouched, so loading continues;
an entry re-binding the same canonical value produces no warning at all. -/
theorem C6_load_collision (norm : ℚ) (d : ColorDictState)
    (ws : List (String × Rgba × Rgba)) (name : String) (value : Rgba)
    (existing : ColorT) (h : lookupName name d.bindings = some existing) :
    (existing.rgba ≠ value →
        loadEntry norm (d, ws) (name, value) = (d, ws ++ [(name, value, existing.rgba)]))
    ∧ (existing.rgba = value → loadEntry norm (d, ws) (name, value) = (d, ws)) := by
  constructor
  · intro hv
    unfold loadEntry
    rw [h]
    simp only []
    rw [if_pos hv]
  · intro hv
    unfold loadEntry
    rw [h]
    simp only []
    rw [if_neg (by simp [hv])]

/-- C6, witnessed on a dict binding `"red" ↦ (1,0,0,1)`: re-encountering
`"red"` with value `(0,1,0,1)` warns and keeps the state; re-encountering it
with the equal value `(1,0,0,1)` is silent. -/
theorem C6_load_collision_witness :
    loadEntry 255 (cdictC1, []) ("red", ⟨0, 1, 0, 1⟩)
      = (cdictC1, [("red", ⟨0, 1, 0, 1⟩, ⟨1, 0, 0, 1⟩)]) :=
  (C6_load_collision 255 cdictC1 [] "red" ⟨0, 1, 0, 1⟩ cdictC1red rfl).1 (by decide)

/-- C7: converting a color with canonical value in `[0,1]^4` through the
chain HSL → HSV → CMYK → CMY → sRGB (each step a `_from_rgba` conversion
with its default parameters) returns the original canonical value — in fact
*exactly*, hence within any tolerance: every conversion passes the source
color's `_rgba` straight into the target's from-canonical constructor,
which stores it unchanged. -/
theorem C7_conversion_chain (v : Rgba)
    (h : 0 ≤ v.r ∧ v.r ≤ 1 ∧ 0 ≤ v.g ∧ v.g ≤ 1 ∧ 0 ≤ v.b ∧ v.b ≤ 1 ∧ 0 ≤ v.a ∧ v.a ≤ 1) :
    (sRGBColor_from_rgba ((CMYColor_from_rgba ((CMYKColor_from_rgba ((HSVColor_from_rgba
      ((HSLColor_from_rgba v 360 1 false (-1)).rgba) 360 1 false (-1)).rgba)
      1 false (-1)).rgba) 1 false (-1)).rgba) 255 false (-1)).rgba = v := rfl

/-- C7, witnessed at the canonical value `(1/2, 1/4, 0, 1)`. -/
theorem C7_conversion_chain_witness :
    (sRGBColor_from_rgba ((CMYColor_from_rgba ((CMYKColor_from_rgba ((HSVColor_from_rgba
      ((HSLColor_from_rgba ⟨1/2, 1/4, 0, 1⟩ 360 1 false (-1)).rgba) 360 1 false (-1)).rgba)
      1 false (-1)).rgba) 1 false (-1)).rgba) 255 false (-1)).rgba = ⟨1/2, 1/4, 0, 1⟩ :=
  C7_conversion_chain ⟨1/2, 1/4, 0, 1⟩ (by norm_num)

/-- C8: constructing `HSLColor(0, 1, 0.5)` under `h_norm = 360`,
`sla_norm = 1` and converting it to sRGB with `norm = 255` (requesting the
alpha channel, so that all four components are materialized) yields the
component tuple `(255, 0, 0, 255)`. -/
theorem C8_hsl_red_scenario :
    (HSLColor_new 0 1 (1/2) none 360 1 false (-1)).map
      (fun c => (sRGBColor_from_rgba c.rgba 255 true (-1)).components)
      = some [255, 0, 0, 255] := by
  norm_num [HSLColor_new, hls_to_rgb, colorsys_v, pymod, sRGBColor_from_rgba, colorTupleNew]

/-- C9 counterexample: a negative component accepted by a forward
constructor need not drive the canonical value below 0.  `HSLColor(-360, 1,
0.5)` (hue component negative, every component ≤ its base) succeeds, and
`colorsys` wraps the hue modulo 1, so the canonical value is `(1, 0, 0, 1)`
— entirely inside `[0, 1]`, with no component below 0. -/
theorem C9_range_counterexample :
    (HSLColor_new (-360) 1 (1/2) none 360 1 false (-1)).map ColorT.rgba = some ⟨1, 0, 0, 1⟩
    ∧ ¬ ∃ v : Rgba,
        (HSLColor_new (-360) 1 (1/2) none 360 1 false (-1)).map ColorT.rgba = some v
        ∧ (v.r < 0 ∨ v.g < 0 ∨ v.b < 0 ∨ v.a < 0) := by
  have h1 : (HSLColor_new (-360) 1 (1/2) none 360 1 false (-1)).map ColorT.rgba
      = some ⟨1, 0, 0, 1⟩ := by
    norm_num [HSLColor_new, hls_to_rgb, colorsys_v, pymod, colorTupleNew, Rgba.mk.injEq]
  refine ⟨h1, ?_⟩
  rintro ⟨v, hv, hneg⟩
  rw [h1] at hv
  injection hv with hv2
  subst hv2
  norm_num at hneg

/-- C9 amended: each forward constructor (sRGB, HSL, HSV, CMYK, CMY) raises
exactly when some supplied component exceeds its declared normalization base
or when the surviving call divides by a zero base (`ZeroDivisionError`), so
calls whose components are all at most a *nonzero* base succeed even when
components are negative; for the sRGB constructor a negative component does
put the corresponding canonical component below 0, but in general negative
inputs may land the canonical value outside `[0,1]` from above (CMY/CMYK
complements) or even back inside it (HSL/HSV hue wraps modulo 1). -/
theorem C9_range_amended :
    (∀ r g b a norm : ℚ, (sRGBColor_new r g b (some a) norm false (-1) = none ↔
        r > norm ∨ g > norm ∨ b > norm ∨ a > norm ∨ norm = 0))
    ∧ (∀ h s l a hn sn : ℚ, (HSLColor_new h s l (some a) hn sn false (-1) = none ↔
        h > hn ∨ s > sn ∨ l > sn ∨ a > sn ∨ hn = 0 ∨ sn = 0))
    ∧ (∀ h s v a hn sn : ℚ, (HSVColor_new h s v (some a) hn sn false (-1) = none ↔
        h > hn ∨ s > sn ∨ v > sn ∨ a > sn ∨ hn = 0 ∨ sn = 0))
    ∧ (∀ c m y k a norm : ℚ, (CMYKColor_new c m y k (some a) norm false (-1) = none ↔
        c > norm ∨ m > norm ∨ y > norm ∨ k > norm ∨ a > norm ∨ norm = 0))
    ∧ (∀ c m y a norm : ℚ, (CMYColor_new c m y (some a) norm false (-1) = none ↔
        c > norm ∨ m > norm ∨ y > norm ∨ a > norm ∨ norm = 0))
    ∧ (∀ r g b a norm : ℚ, 0 < norm → r < 0 → g ≤ norm → b ≤ norm → a ≤ norm →
        ∃ c, sRGBColor_new r g b (some a) norm false (-1) = some c ∧ c.rgba.r < 0) := by
  refine ⟨?_, ?_, ?_, ?_, ?_, ?_⟩
  · intro r g b a norm
    simp only [sRGBColor_new, Option.getD_some]
    split_ifs with h1 h2 <;> simp_all <;> tauto
  · intro h s l a hn sn
    simp only [HSLColor_new, Option.getD_some]
    split_ifs with h1 h2 h3 <;> simp_all <;> tauto
  · intro h s v a hn sn
    simp only [HSVColor_new, Option.getD_some]
    split_ifs with h1 h2 h3 <;> simp_all <;> tauto
  · intro c m y k a norm
    simp only [CMYKColor_new, Option.getD_some]
    split_ifs with h1 h2 <;> simp_all <;> tauto
  · intro c m y a norm
    simp only [CMYColor_new, Option.getD_some]
    split_ifs with h1 h2 <;> simp_all <;> tauto
  · intro r g b a norm hn hr hg hb ha
    have hcond : ¬(r > norm ∨ g > norm ∨ b > norm ∨ a > norm) := by
      push_neg
      exact ⟨le_of_lt (hr.trans hn), hg, hb, ha⟩
    refine ⟨colorTupleNew [r, g, b, a] ⟨r / norm, g / norm, b / norm, a / norm⟩
      false (-1), ?_, ?_⟩
    · simp only [sRGBColor_new, Option.getD_some]
      rw [if_neg hcond, if_neg hn.ne']
    · exact div_neg_of_neg_of_pos hr hn

/-- C9 amended, witnessed: `sRGBColor(-1, 0, 0, 1)` with `norm = 2` succeeds
and its canonical red component is negative. -/
theorem C9_range_amended_witness :
    ∃ c, sRGBColor_new (-1) 0 0 (some 1) 2 false (-1) = some c ∧ c.rgba.r < 0 :=
  C9_range_amended.2.2.2.2.2 (-1) 0 0 1 2 (by norm_num) (by norm_num)
    (by norm_num) (by norm_num) (by norm_num)

/-- C10: the direct `sRGBColor` constructor never materializes alpha —
whenever a call (with any `norm`, `include_a = True`) constructs a color at
all, it handed `include_a=False` to the base constructor, so the displayed
tuple is exactly `(r, g, b)`; only `_from_rgba` (used by conversions and by
`ColorDict` loading) honors `include_a = True`, producing all four scaled
components. -/
theorem C10_srgb_alpha :
    (∀ (r g b a norm : ℚ) (c : ColorT),
        sRGBColor_new r g b (some a) norm true (-1) = some c → c.components = [r, g, b])
    ∧ (∀ (v : Rgba) (norm : ℚ), (sRGBColor_from_rgba v norm true (-1)).components
        = [v.r * norm, v.g * norm, v.b * norm, v.a * norm]) := by
  constructor
  · intro r g b a norm c hc
    simp only [sRGBColor_new, Option.getD_some] at hc
    split_ifs at hc with h1 h2
    cases hc
    rfl
  · intro v norm
    rfl

/-- C10, witnessed: `sRGBColor(10, 20, 30, 40, norm=255, include_a=True)`
constructs a color yet displays only `(10, 20, 30)`. -/
theorem C10_srgb_alpha_witness :
    sRGBColor_new 10 20 30 (some 40) 255 true (-1) = some srgbC10
    ∧ srgbC10.components = [10, 20, 30] := by
  have h : sRGBColor_new 10 20 30 (some 40) 255 true (-1) = some srgbC10 := by
    norm_num [sRGBColor_new, colorTupleNew, srgbC10, ColorT.mk.injEq, Rgba.mk.injEq]
  exact ⟨h, C10_srgb_alpha.1 10 20 30 40 255 srgbC10 h⟩

end Colordict
